import Mathlib

/-!
Shallow embedding of the authentication, authorization and password-reset core
of the Nodejs-Practice repository.

Sources embedded here:
- src/unnamed/part_010 : the authorization middleware (auth.middleware.js) and
  the authRole factory (authRole.js);
- src/controllers/user.controllers.js : userController.getAllUsers,
  authController.login, authController.forgotPassword,
  authController.changePassword;
- src/models/user.models.js and src/models/role.models.js : the document
  schemas;
- middleware/authPremiss.js is not present under src/ (only documentation
  quotes in src/unnamed/part_008 and src/docs/06-ROLE-BASED-ACCESS-CONTROL.md
  and router callers), so authPremiss below is modelled from the spec.

Modelling conventions: MongoDB stores are lists of records; the unique _id is a
Nat; jwt signing and verification are abstract function parameters (signing
produces an opaque string, verification either yields the decoded claims or
the message of the thrown error); bcrypt hashing is an abstract function
parameter. Express semantics that matter here are modelled explicitly: calling
res.status(...).json(...) writes a response but does NOT stop the handler
(a missing return lets execution continue), and a second write after a
response has been sent throws instead of writing.
-/

namespace NodePractice

/-- A JSON response body of shape status / success / message, as produced by
res.status(s).json(\x7b success, message \x7d) throughout the controllers. -/
structure HttpResp where
  status : Nat
  success : Bool
  message : String
deriving Repr, DecidableEq

/-- The decoded payload of a signed jwt: the controllers sign \x7b _id \x7d and the
jsonwebtoken library adds iat and exp claims. principalId embeds the _id
claim. -/
structure JwtClaims where
  principalId : Nat
  iat : Nat
  exp : Nat
deriving Repr, DecidableEq

/-- A stored user document (userSchema in src/models/user.models.js). The
auth-irrelevant profile paths (dateOfBirth, address, gender, profileImage,
timestamps) are elided; password stores the bcrypt hash; the schema declares
password WITHOUT select:false, which matters below. -/
structure UserRec where
  id : Nat
  name : String
  email : String
  password : String
  role : String
  passwordResetToken : Option String
  passwordResetExpires : Option Nat
deriving Repr, DecidableEq

/-- A stored role document (roleSchema in src/models/role.models.js). -/
structure RoleRec where
  name : String
  permissions : List String
deriving Repr, DecidableEq

/-- The message of the TypeError thrown by user.role when a lookup resolved to
null. -/
def nullRoleReadMsg : String := "TypeError: cannot read role of null"

/-- userModel.findById over the store: first document with the given _id. -/
def findById (store : List UserRec) (i : Nat) : Option UserRec :=
  store.find? (fun u => decide (u.id = i))

/-- userModel.findOne(\x7b email \x7d). -/
def findByEmail (store : List UserRec) (email : String) : Option UserRec :=
  store.find? (fun u => decide (u.email = email))

/-- Outcome of one run of a request-stage middleware handler. -/
inductive MwOutcome where
  /-- next() was called: the downstream handler runs. -/
  | next
  /-- a response was sent and next() was not called. -/
  | resp (r : HttpResp)
  /-- the async handler rejected with an unhandled error: no response was sent
  and next() was not called (Express 4 does not catch async rejections). -/
  | fault (msg : String)
deriving Repr, DecidableEq

/-- The HTTP status of a middleware outcome, when it sent a response. -/
def MwOutcome.statusOf : MwOutcome → Option Nat
  | .next => none
  | .resp r => some r.status
  | .fault _ => none

/-- The authRole factory from src/unnamed/part_010 lines 3-19. The try/catch in
that file wraps the FACTORY (which cannot throw), not the returned handler, and
its catch block references res and err that are not in scope there; the
returned async handler itself has no try/catch. So a rejected lookup, and the
TypeError thrown by user.role when findById resolves to null, both leave the
request with no response at all: modelled as MwOutcome.fault. A found user is
compared by the JavaScript === on strings (exact, case-sensitive); on mismatch
the handler sends status 401 with message Access Denied for this role. The
lookup is abstracted as a function so that a rejecting store is expressible;
instantiate it with fun i => Except.ok (findById store i) for a healthy
store. -/
def authRole (role : String) (lookup : Nat → Except String (Option UserRec))
    (reqUser : JwtClaims) : MwOutcome :=
  match lookup reqUser.principalId with
  | .error e => .fault e
  | .ok none => .fault nullRoleReadMsg
  | .ok (some user) =>
      if user.role = role then .next
      else .resp ⟨401, false, "Access Denied for this role"⟩

/-- Modelled from the spec: the file middleware/authPremiss.js is missing from
src/ (only its callers in the routers and documentation quotes in
src/unnamed/part_008 lines 193-225 exist). Per spec section 4.5, matching the
quoted implementation: resolve the principal, resolve the role document whose
name equals the principal role; if none exists respond 500 Role not found;
otherwise proceed iff requiredPermission is a member of role.permissions, else
respond 403. The quoted code wraps the handler body in try/catch responding
500 Internal Server Error, which covers a null principal. -/
def authPremiss (permission : String) (users : List UserRec)
    (roles : List RoleRec) (reqUser : JwtClaims) : MwOutcome :=
  match findById users reqUser.principalId with
  | none => .resp ⟨500, false, "Internal Server Error"⟩
  | some user =>
      match roles.find? (fun r => decide (r.name = user.role)) with
      | none => .resp ⟨500, false, "Role not found"⟩
      | some role =>
          if permission ∈ role.permissions then .next
          else .resp ⟨403, false, "No Permission for this role"⟩

/-- The literal scheme string the middleware tests with startsWith: the source
writes authHeader.startsWith("Bearer"), WITHOUT a trailing space. -/
def bearerScheme : String := "Bearer"

/-- The single-space separator used by authHeader.split(" "). -/
def spaceSep : String := " "

/-- JavaScript String.prototype.split(" ") on the character list of the
string: maximal, possibly empty, chunks between single space characters
(split of the empty string is one empty chunk). Structurally recursive so
that witnesses evaluate inside the kernel. -/
def splitSpaceChars : List Char → List (List Char)
  | [] => [[]]
  | c :: cs =>
      if c = ' ' then [] :: splitSpaceChars cs
      else
        match splitSpaceChars cs with
        | [] => [[c]]
        | r :: rs => (c :: r) :: rs

/-- JavaScript String.prototype.split(" ") as a String operation. -/
def jsSplitSpace (s : String) : List String :=
  (splitSpaceChars s.data).map String.mk

/-- JavaScript String.prototype.startsWith on character lists. -/
def charsStartWith : List Char → List Char → Bool
  | _, [] => true
  | [], _ :: _ => false
  | c :: cs, p :: ps => (decide (c = p)) && charsStartWith cs ps

/-- JavaScript s.startsWith(pre) as a String operation. -/
def jsStartsWith (s pre : String) : Bool := charsStartWith s.data pre.data

/-- The token extraction authHeader.split(" ")[1]: element 1 of the split, or
undefined (none) when the header has no space. -/
def tokenField (h : String) : Option String :=
  (jsSplitSpace h).get? 1

/-- Observable result of one run of the authorization middleware
(src/unnamed/part_010 lines 22-43): the responses actually delivered in order,
whether next() was invoked, and the decoded claims attached as req.user. -/
structure AuthMwResult where
  responses : List HttpResp
  nextCalled : Bool
  reqUser : Option JwtClaims
deriving Repr, DecidableEq

/-- The authorization middleware, src/unnamed/part_010 lines 22-43. Control
flow modelled exactly:
- header absent: !authHeader is truthy so a 401 Token not found body is
  written, but there is no return, so execution continues;
  authHeader.split(" ") then throws on undefined and the catch cannot write a
  second response (headers already sent);
- header present: the prefix test uses startsWith("Bearer"), no trailing
  space; on failure a 401 is written WITHOUT return and execution continues
  regardless; the token is split(" ")[1]; Jwt.verify throws on undefined or on
  any invalid token, landing in the catch, whose 401 unauthorized Access is
  delivered only if no response was already written; on successful
  verification req.user is set and next() is called even if a 401 was already
  written by the prefix branch. -/
def authorization (verify : String → Except String JwtClaims)
    (header : Option String) : AuthMwResult :=
  match header with
  | none => ⟨[⟨401, false, " Token not found!!"⟩], false, none⟩
  | some h =>
      let pre : List HttpResp :=
        if jsStartsWith h bearerScheme then []
        else [⟨401, false, " Token not found!!"⟩]
      match tokenField h with
      | none =>
          ⟨pre ++ (if jsStartsWith h bearerScheme then
              [⟨401, false, "unauthorized Access"⟩] else []), false, none⟩
      | some t =>
          match verify t with
          | .error _ =>
              ⟨pre ++ (if jsStartsWith h bearerScheme then
                  [⟨401, false, "unauthorized Access"⟩] else []), false, none⟩
          | .ok claims => ⟨pre, true, some claims⟩

/-- Calls changePassword performs against external services, in order. -/
inductive Eff where
  /-- jwt.verify(token, secret) -/
  | jwtVerify (token : String)
  /-- userModel.findOne(\x7b _id, passwordResetToken, passwordResetExpires \x7d) -/
  | storeFindOne
  /-- user.save() -/
  | storeSave
deriving Repr, DecidableEq

/-- Result of one changePassword call: the delivered response, the store after
the call, and the trace of external calls made. -/
structure CPResult where
  resp : HttpResp
  store : List UserRec
  effects : List Eff
deriving Repr, DecidableEq

/-- The filter of userModel.findOne(\x7b _id: decoded._id, passwordResetToken:
token, passwordResetExpires: \x7b $gt: Date.now() \x7d \x7d) in changePassword: a
document matches when its _id equals the decoded claim, its stored reset token
equals the presented token, and its stored expiry exists and lies strictly in
the future. -/
def resetMatch (principalId : Nat) (token : String) (now : Nat)
    (u : UserRec) : Bool :=
  decide (u.id = principalId) && decide (u.passwordResetToken = some token) &&
    (match u.passwordResetExpires with
     | some e => decide (now < e)
     | none => false)

/-- The in-place update a successful changePassword performs on the matched
document: password replaced by the bcrypt hash of the new secret, and both
passwordResetToken and passwordResetExpires set to undefined. -/
def consumeReset (hash : String → String) (newPassword : String)
    (u : UserRec) : UserRec :=
  { u with password := hash newPassword,
           passwordResetToken := none,
           passwordResetExpires := none }

/-- authController.changePassword, src/controllers/user.controllers.js lines
286-334. Steps: (1) newPassword !== confirmPassword responds 400 Passwords do
not match and returns before any external call; (2) jwt.verify is called
OUTSIDE any inner try/catch, so a verification failure throws into the single
generic catch, which responds 500 with err.message; (3) the findOne above; on
no match responds 400 Token expired or invalid; (4) on a match the password is
replaced by the bcrypt hash of newPassword, both passwordResetToken and
passwordResetExpires are set to undefined, and the document is saved. -/
def changePassword (verify : String → Except String JwtClaims)
    (hash : String → String) (now : Nat) (store : List UserRec)
    (token newPassword confirmPassword : String) : CPResult :=
  if newPassword ≠ confirmPassword then
    ⟨⟨400, false, "Passwords do not match"⟩, store, []⟩
  else
    match verify token with
    | .error e => ⟨⟨500, false, e⟩, store, [.jwtVerify token]⟩
    | .ok claims =>
        match store.find? (resetMatch claims.principalId token now) with
        | none =>
            ⟨⟨400, false, "Token expired or invalid"⟩, store,
              [.jwtVerify token, .storeFindOne]⟩
        | some u =>
            let u' : UserRec := consumeReset hash newPassword u
            ⟨⟨200, true, "Password reset successfully"⟩,
              store.map (fun v => if v.id = u.id then u' else v),
              [.jwtVerify token, .storeFindOne, .storeSave]⟩

/-- expiresIn of the token signed by authController.login: the source passes
the string literal written as 1m, i.e. sixty seconds. -/
def loginTokenExpiresInSeconds : Nat := 60

/-- expiresIn of the token signed by authController.forgotPassword: the source
passes the string literal written as 1h, i.e. 3600 seconds. -/
def resetJwtExpiresInSeconds : Nat := 3600

/-- The stored wall-clock expiry bookkeeping of forgotPassword:
Date.now() + 60 * 60 * 1000 milliseconds. -/
def resetStoredExpiryMs : Nat := 60 * 60 * 1000

/-- Result of one login call: the delivered response, the serialized data
object of the payload, and the issued token if one was delivered. -/
structure LoginResult where
  resp : HttpResp
  data : List (String × String)
  token : Option String
deriving Repr, DecidableEq

/-- authController.login, src/controllers/user.controllers.js lines 192-224.
sign is the abstract jwt.sign(\x7b _id \x7d, secret, \x7b expiresIn \x7d), taking the _id
and the expiresIn seconds; hashVerify is bcrypt.compareSync. When findOne
yields null, user.password throws and the catch responds 500. On a password
mismatch a 400 Invalid Credentials is written (without return; the later 201
write then throws, so the 400 is what is delivered and no token reaches the
client). On success the 201 payload data contains exactly email, name and _id,
plus the token signed with the one-minute profile. -/
def login (sign : Nat → Nat → String) (hashVerify : String → String → Bool)
    (store : List UserRec) (email password : String) : LoginResult :=
  match findByEmail store email with
  | none => ⟨⟨500, false, "TypeError: cannot read password of null"⟩, [], none⟩
  | some user =>
      if hashVerify password user.password then
        ⟨⟨201, true, "User Logged in Successfully..."⟩,
          [(⟨"email", user.email⟩ : String × String),
           ⟨"name", user.name⟩, ⟨"_id", toString user.id⟩],
          some (sign user.id loginTokenExpiresInSeconds)⟩
      else ⟨⟨400, false, "Invalid Credentials"⟩, [], none⟩

/-- Result of one forgotPassword call. -/
structure FPResult where
  resp : HttpResp
  store : List UserRec
deriving Repr, DecidableEq

/-- authController.forgotPassword, src/controllers/user.controllers.js lines
228-284. On an unknown email a 404 is written (without return; the subsequent
access to existEmail._id throws and the catch cannot write again). On a known
email a reset jwt with the one-hour profile is signed, stored into
passwordResetToken together with passwordResetExpires = now + 3600000 ms, the
document is saved and the mail is dispatched. -/
def forgotPassword (sign : Nat → Nat → String) (now : Nat)
    (store : List UserRec) (email : String) : FPResult :=
  match findByEmail store email with
  | none => ⟨⟨404, false, "User not found"⟩, store⟩
  | some u =>
      let token := sign u.id resetJwtExpiresInSeconds
      let u' : UserRec :=
        { u with passwordResetToken := some token,
                 passwordResetExpires := some (now + resetStoredExpiryMs) }
      ⟨⟨201, true, "Password Reset Link Sent Successfully..."⟩,
        store.map (fun v => if v.id = u.id then u' else v)⟩

/-- The JSON document mongoose serializes for a user document: the password
path carries NO select:false in userSchema, so userModel.find() returns it and
res.json emits it together with every other stored path. -/
def serializeUser (u : UserRec) : List (String × String) :=
  [(⟨"_id", toString u.id⟩ : String × String), ⟨"name", u.name⟩,
   ⟨"email", u.email⟩, ⟨"password", u.password⟩, ⟨"role", u.role⟩]
  ++ (match u.passwordResetToken with
      | some t => [(⟨"passwordResetToken", t⟩ : String × String)]
      | none => [])
  ++ (match u.passwordResetExpires with
      | some e => [(⟨"passwordResetExpires", toString e⟩ : String × String)]
      | none => [])

/-- Result of one getAllUsers call. -/
structure UsersListResult where
  resp : HttpResp
  payload : List (List (String × String))
deriving Repr, DecidableEq

/-- userController.getAllUsers, src/controllers/user.controllers.js lines 8-30:
userModel.find() with no projection; 404 when the store is empty, otherwise
200 with the full serialized documents as payload. -/
def getAllUsers (store : List UserRec) : UsersListResult :=
  if store.length = 0 then ⟨⟨404, false, "No users found"⟩, []⟩
  else ⟨⟨200, true, "Users fetched successfully"⟩, store.map serializeUser⟩

/-! Concrete sample data used by witnesses and counterexamples. -/

/-- Sample reset token string. -/
def demoToken : String := "tok"

/-- Sample decoded claims for principal 1. -/
def demoClaims : JwtClaims := ⟨1, 0, 3600⟩

/-- Sample jwt error message for a bad signature. -/
def badSigMsg : String := "invalid signature"

/-- The jwt error message the jsonwebtoken library raises on garbage input. -/
def malformedMsg : String := "jwt malformed"

/-- Sample store failure message. -/
def storeDownMsg : String := "store down"

/-- Sample plaintext password for the idle user. -/
def demoPw : String := "pw"

/-- Sample verification oracle: demoToken decodes to demoClaims, everything
else fails as an invalid signature. -/
def demoVerify : String → Except String JwtClaims :=
  fun t => if t = demoToken then .ok demoClaims else .error badSigMsg

/-- Sample verification oracle that fails on every token, with the message the
jsonwebtoken library uses for garbage input. -/
def demoBadVerify : String → Except String JwtClaims :=
  fun _ => .error malformedMsg

/-- Sample bcrypt.hash model. -/
def demoHash : String → String := fun s => s ++ "#hashed"

/-- Sample bcrypt.compareSync model matching demoHash. -/
def demoHashVerify : String → String → Bool :=
  fun secret stored => stored = demoHash secret

/-- Sample jwt.sign model: an opaque string determined by _id and expiresIn. -/
def demoSign : Nat → Nat → String :=
  fun i ttl => "signed." ++ toString i ++ "." ++ toString ttl

/-- Sample role name constants. -/
def roleAdmin : String := "Admin"

/-- Sample role name constant for the default role. -/
def roleUser : String := "User"

/-- Sample permission constant. -/
def permDelete : String := "DELETE"

/-- Sample password strings for the reset scenario. -/
def demoNewPw : String := "NewPass123!"

/-- Second sample password for the replay attempt. -/
def demoOtherPw : String := "Another1!"

/-- Sample user with a pending reset token, role User. -/
def demoUser : UserRec :=
  { id := 1, name := "u1", email := "u1@example.com",
    password := "oldsecret#hashed", role := roleUser,
    passwordResetToken := some demoToken, passwordResetExpires := some 100 }

/-- Sample user without a pending reset token. -/
def demoUserIdle : UserRec :=
  { id := 1, name := "u1", email := "u1@example.com",
    password := demoHash demoPw, role := roleUser,
    passwordResetToken := none, passwordResetExpires := none }

/-- Sample one-user store with a pending reset. -/
def demoStore : List UserRec := [demoUser]

/-- Sample one-user store without a pending reset. -/
def demoStoreIdle : List UserRec := [demoUserIdle]

/-- Sample healthy lookup over demoStoreIdle. -/
def demoLookup : Nat → Except String (Option UserRec) :=
  fun i => .ok (findById demoStoreIdle i)

/-- Sample role table: role User holds READ, UPDATE and DELETE. -/
def demoRoles : List RoleRec :=
  [{ name := roleUser, permissions := ["READ", "UPDATE", "DELETE"] }]

/-- Sample role table where role User lacks DELETE. -/
def demoRolesNoDelete : List RoleRec :=
  [{ name := roleUser, permissions := ["READ", "UPDATE"] }]

/-- Sample header whose scheme is not the literal Bearer-space prefix yet
passes the startsWith test of the source. -/
def demoSchemeGapHeader : String := "Bearerx tok"

/-- Sample well-formed header. -/
def demoGoodHeader : String := "Bearer tok"

/-- Sample lookup that resolves to no principal. -/
def demoNullLookup : Nat → Except String (Option UserRec) := fun _ => .ok none

/-- Sample lookup that rejects. -/
def demoFailLookup : Nat → Except String (Option UserRec) :=
  fun _ => .error storeDownMsg

/-- Second sample decoded claims for the same principal, with different iat
and exp claims. -/
def demoClaimsB : JwtClaims := ⟨1, 5, 999999⟩

/-! Theorems settling the claims. -/

/-- C8: a changePassword call with mismatched newSecret and confirmSecret
responds 400 ValidationError (Passwords do not match), leaves the store
unchanged, and performs no token verification and no store read or write
(empty effect trace). -/
theorem changePassword_mismatch_untouched
    (verify : String → Except String JwtClaims) (hash : String → String)
    (now : Nat) (store : List UserRec) (token np cp : String) (h : np ≠ cp) :
    changePassword verify hash now store token np cp =
      ⟨⟨400, false, "Passwords do not match"⟩, store, []⟩ := by
  simp only [changePassword, if_pos h]

/-- Witness for changePassword_mismatch_untouched at a concrete call. -/
theorem changePassword_mismatch_untouched_witness :
    demoNewPw ≠ demoOtherPw ∧
    changePassword demoVerify demoHash 50 demoStore demoToken demoNewPw
        demoOtherPw = ⟨⟨400, false, "Passwords do not match"⟩, demoStore, []⟩ :=
  ⟨by decide, changePassword_mismatch_untouched demoVerify demoHash 50
    demoStore demoToken demoNewPw demoOtherPw (by decide)⟩

/-- C5: the code evaluated at a failing input. With matching secrets and a
token whose verification throws, changePassword responds with the generic 500
server error carrying the thrown message, not with the 400 InvalidOrExpired
client outcome the claim states: jwt.verify sits outside any inner try/catch,
so its exception lands in the generic handler. -/
theorem changePassword_verify_failure_hits_generic_500 :
    (changePassword demoBadVerify demoHash 50 demoStore demoToken demoNewPw
        demoNewPw).resp = ⟨500, false, malformedMsg⟩ ∧
    (changePassword demoBadVerify demoHash 50 demoStore demoToken demoNewPw
        demoNewPw).resp.status ≠ 400 := by
  decide

/-- C6: the code evaluated at a failing input. A user listing against a store
holding one user answers 200 with the full serialized documents, and the
serialized document contains the password pair carrying the stored credential
hash: the schema has no select:false on password, so find() returns it and it
is emitted to the client. -/
theorem getAllUsers_payload_contains_password_hash :
    (getAllUsers demoStoreIdle).resp.status = 200 ∧
    (getAllUsers demoStoreIdle).payload = [serializeUser demoUserIdle] ∧
    (⟨"password", demoUserIdle.password⟩ : String × String) ∈
      serializeUser demoUserIdle := by
  decide

/-- Supporting observation for the login half of the credential-hash claim:
the successful login payload data carries exactly email, name and _id, so no
password pair occurs in it. -/
theorem login_payload_omits_password
    (sign : Nat → Nat → String) (hashVerify : String → String → Bool)
    (store : List UserRec) (email password : String) :
    ∀ v, (⟨"password", v⟩ : String × String) ∉
      (login sign hashVerify store email password).data := by
  intro v
  unfold login
  cases findByEmail store email with
  | none => simp
  | some user =>
      by_cases h : hashVerify password user.password <;> simp [h]

/-- C7: the code evaluated at failing inputs. When the principal lookup of
authRole resolves to no principal, or rejects outright, the handler ends as an
unhandled rejection: next is not called, but no response is delivered either
(the factory-level try/catch never guards the returned handler and its catch
references res out of scope), contradicting the claim that such a fault is
surfaced to the client as a server error response. -/
theorem authRole_lookup_fault_sends_no_response :
    authRole roleUser demoNullLookup demoClaims = .fault nullRoleReadMsg ∧
    authRole roleUser demoFailLookup demoClaims = .fault storeDownMsg ∧
    (authRole roleUser demoNullLookup demoClaims).statusOf = none ∧
    (authRole roleUser demoFailLookup demoClaims).statusOf = none := by
  decide

/-- C9: the code evaluated at a concrete successful login. The bearer session
token is signed with the one-minute expiresIn profile (60 seconds), while the
password-reset token uses the one-hour profile (3600 seconds): the session
TTL is not on the order of one hour and does not match the reset profile. -/
theorem login_session_token_ttl_is_one_minute :
    loginTokenExpiresInSeconds = 60 ∧ resetJwtExpiresInSeconds = 3600 ∧
    loginTokenExpiresInSeconds ≠ resetJwtExpiresInSeconds ∧
    (login demoSign demoHashVerify demoStoreIdle demoUserIdle.email
        demoPw).resp.status = 201 ∧
    (login demoSign demoHashVerify demoStoreIdle demoUserIdle.email
        demoPw).token = some (demoSign demoUserIdle.id 60) := by
  decide

/-- C3 counterexample: a stored principal with role User checked by authRole
requiring role Admin receives status 401 Access Denied for this role — not
the 403 Forbidden status the claim states. -/
theorem authRole_mismatch_responds_401_not_403 :
    authRole roleAdmin demoLookup demoClaims
      = .resp ⟨401, false, "Access Denied for this role"⟩ ∧
    (authRole roleAdmin demoLookup demoClaims).statusOf = some 401 ∧
    (authRole roleAdmin demoLookup demoClaims).statusOf ≠ some 403 := by
  decide

/-- C3 amended: whenever the principal lookup yields a stored user, authRole
compares the stored role to the required role by exact, case-sensitive string
equality, calling next on equality, and on any mismatch responding with
status 401 and message Access Denied for this role (not 403). -/
theorem authRole_exact_role_equality
    (role : String) (lookup : Nat → Except String (Option UserRec))
    (claims : JwtClaims) (u : UserRec)
    (h : lookup claims.principalId = .ok (some u)) :
    authRole role lookup claims =
      (if u.role = role then .next
       else .resp ⟨401, false, "Access Denied for this role"⟩) := by
  simp only [authRole, h]

/-- Witness for authRole_exact_role_equality: the required role Admin against
the stored role User takes the mismatch branch of the characterization. -/
theorem authRole_exact_role_equality_witness :
    authRole roleAdmin demoLookup demoClaims =
      (if demoUserIdle.role = roleAdmin then .next
       else .resp ⟨401, false, "Access Denied for this role"⟩) :=
  authRole_exact_role_equality roleAdmin demoLookup demoClaims demoUserIdle
    (by rfl)

/-- C1: a reset token accepted by a first successful changePassword call is
single use. The success stores a principal whose passwordResetToken and
passwordResetExpires are both cleared, so replaying the same,
still-verifiable token is answered with the 400 Token expired or invalid
outcome (InvalidOrExpired), at any later time and for any confirmed new
secret. -/
theorem changePassword_single_use
    (verify : String → Except String JwtClaims) (hash : String → String)
    (now now' : Nat) (store : List UserRec) (token s s' : String)
    (h1 : (changePassword verify hash now store token s s).resp.status = 200) :
    (changePassword verify hash now'
        (changePassword verify hash now store token s s).store
        token s' s').resp = ⟨400, false, "Token expired or invalid"⟩ ∧
    ∃ c u, verify token = .ok c ∧
      u ∈ (changePassword verify hash now store token s s).store ∧
      u.id = c.principalId ∧ u.passwordResetToken = none ∧
      u.passwordResetExpires = none := by
  have hne : ¬ (s ≠ s) := fun h => h rfl
  have hne' : ¬ (s' ≠ s') := fun h => h rfl
  cases hv : verify token with
  | error e =>
      exfalso
      simp only [changePassword, if_neg hne, hv] at h1
      omega
  | ok c =>
      cases hf : store.find? (resetMatch c.principalId token now) with
      | none =>
          exfalso
          simp only [changePassword, if_neg hne, hv, hf] at h1
          omega
      | some u =>
          have hpred := List.find?_some hf
          have hid : u.id = c.principalId := by
            simp only [resetMatch, Bool.and_eq_true, decide_eq_true_eq]
              at hpred
            exact hpred.1.1
          have hmem : u ∈ store := List.mem_of_find?_eq_some hf
          have hstore : (changePassword verify hash now store token s s).store
              = store.map (fun v => if v.id = u.id then
                  consumeReset hash s u else v) := by
            simp only [changePassword, if_neg hne, hv, hf]
          have hfind2 : (store.map (fun v => if v.id = u.id then
                  consumeReset hash s u else v)).find?
              (resetMatch c.principalId token now') = none := by
            rw [List.find?_eq_none]
            intro v hvmem
            rcases List.mem_map.mp hvmem with ⟨w, hw, rfl⟩
            by_cases hwid : w.id = u.id
            · rw [if_pos hwid]
              simp [resetMatch, consumeReset]
            · rw [if_neg hwid]
              simp only [resetMatch, Bool.and_eq_true, decide_eq_true_eq]
              rintro ⟨⟨hwc, -⟩, -⟩
              exact hwid (hwc.trans hid.symm)
          constructor
          · rw [hstore]
            simp only [changePassword, if_neg hne', hv, hfind2]
          · refine ⟨c, consumeReset hash s u, rfl, ?_, hid, rfl, rfl⟩
            rw [hstore]
            exact List.mem_map.mpr ⟨u, hmem, by rw [if_pos rfl]⟩

/-- Witness for changePassword_single_use: the concrete scenario of the spec,
a stored token consumed once and then replayed. -/
theorem changePassword_single_use_witness :
    (changePassword demoVerify demoHash 50 demoStore demoToken demoNewPw
        demoNewPw).resp.status = 200 ∧
    ((changePassword demoVerify demoHash 70
        (changePassword demoVerify demoHash 50 demoStore demoToken demoNewPw
          demoNewPw).store demoToken demoOtherPw demoOtherPw).resp
        = ⟨400, false, "Token expired or invalid"⟩ ∧
      ∃ c u, demoVerify demoToken = .ok c ∧
        u ∈ (changePassword demoVerify demoHash 50 demoStore demoToken
              demoNewPw demoNewPw).store ∧
        u.id = c.principalId ∧ u.passwordResetToken = none ∧
        u.passwordResetExpires = none) :=
  ⟨by decide, changePassword_single_use demoVerify demoHash 50 70 demoStore
    demoToken demoNewPw demoOtherPw (by decide)⟩

/-- C2 counterexample: the header Bearerx tok does not start with the literal
Bearer-space prefix, yet when its second space-separated field verifies the
middleware delivers no response at all, attaches the claims and invokes the
downstream handler: the source checks startsWith(Bearer) without the trailing
space. -/
theorem authorization_scheme_gap :
    jsStartsWith demoSchemeGapHeader (bearerScheme ++ spaceSep) = false ∧
    authorization demoVerify (some demoSchemeGapHeader)
      = ⟨[], true, some demoClaims⟩ := by
  decide

/-- C2 amended: an absent Authorization header is answered 401 with the
downstream handler not invoked; in general the downstream handler is invoked
exactly when the header is present and its second space-separated field
verifies successfully — the scheme prefix actually checked is Bearer without
the trailing space and a failed prefix check writes a 401 without stopping
the chain — and whenever the handler is not invoked, some 401 response was
delivered. -/
theorem authorization_reject_characterization
    (verify : String → Except String JwtClaims) (header : Option String) :
    ((authorization verify header).nextCalled = true ↔
      ∃ h t c, header = some h ∧ tokenField h = some t ∧ verify t = .ok c) ∧
    ((authorization verify header).nextCalled = false →
      ∃ r ∈ (authorization verify header).responses, r.status = 401) := by
  cases header with
  | none =>
      constructor
      · constructor
        · intro hn; exact absurd hn (by simp [authorization])
        · rintro ⟨h, t, c, hh, -, -⟩; exact Option.noConfusion hh
      · intro _
        exact ⟨⟨401, false, " Token not found!!"⟩, by simp [authorization], rfl⟩
  | some h =>
      cases ht : tokenField h with
      | none =>
          constructor
          · constructor
            · intro hn
              by_cases hb : jsStartsWith h bearerScheme <;>
                simp [authorization, hb, ht] at hn
            · rintro ⟨h2, t, c, hh2, ht2, -⟩
              injection hh2 with hh2; subst hh2
              rw [ht] at ht2; exact Option.noConfusion ht2
          · intro _
            by_cases hb : jsStartsWith h bearerScheme
            · exact ⟨⟨401, false, "unauthorized Access"⟩,
                by simp [authorization, hb, ht], rfl⟩
            · exact ⟨⟨401, false, " Token not found!!"⟩,
                by simp [authorization, hb, ht], rfl⟩
      | some t =>
          cases hv : verify t with
          | error e =>
              constructor
              · constructor
                · intro hn
                  by_cases hb : jsStartsWith h bearerScheme <;>
                    simp [authorization, hb, ht, hv] at hn
                · rintro ⟨h2, t2, c, hh2, ht2, hv2⟩
                  injection hh2 with hh2; subst hh2
                  rw [ht] at ht2; injection ht2 with ht2; subst ht2
                  rw [hv] at hv2; exact Except.noConfusion hv2
              · intro _
                by_cases hb : jsStartsWith h bearerScheme
                · exact ⟨⟨401, false, "unauthorized Access"⟩,
                    by simp [authorization, hb, ht, hv], rfl⟩
                · exact ⟨⟨401, false, " Token not found!!"⟩,
                    by simp [authorization, hb, ht, hv], rfl⟩
          | ok c =>
              constructor
              · constructor
                · intro _; exact ⟨h, t, c, rfl, ht, hv⟩
                · intro _; simp [authorization, ht, hv]
              · intro hn
                exfalso
                simp [authorization, ht, hv] at hn

/-- Witness for authorization_reject_characterization at a well-formed header
carrying a valid token. -/
theorem authorization_reject_characterization_witness :
    (authorization demoVerify (some demoGoodHeader)).nextCalled = true :=
  (authorization_reject_characterization demoVerify
      (some demoGoodHeader)).1.mpr
    ⟨demoGoodHeader, demoToken, demoClaims, rfl, by decide, by rfl⟩

/-- C4: the permission check (modelled from the spec: middleware/authPremiss.js
is not under src/). For an authenticated principal present in the store, if no
role document named like the stored principal role exists, the check responds
500 Role not found; if one exists, it calls next when requiredPermission is a
member of its permissions and responds 403 No Permission for this role
otherwise. -/
theorem authPremiss_role_membership
    (permission : String) (users : List UserRec) (roles : List RoleRec)
    (claims : JwtClaims) (u : UserRec)
    (hu : findById users claims.principalId = some u) :
    ((∀ r ∈ roles, r.name ≠ u.role) →
      authPremiss permission users roles claims
        = .resp ⟨500, false, "Role not found"⟩) ∧
    (∀ role, roles.find? (fun r => decide (r.name = u.role)) = some role →
      (permission ∈ role.permissions →
        authPremiss permission users roles claims = .next) ∧
      (permission ∉ role.permissions →
        authPremiss permission users roles claims
          = .resp ⟨403, false, "No Permission for this role"⟩)) := by
  constructor
  · intro hnone
    have hfin : roles.find? (fun r => decide (r.name = u.role)) = none := by
      rw [List.find?_eq_none]
      intro r hr
      simp only [decide_eq_true_eq]
      exact hnone r hr
    simp only [authPremiss, hu, hfin]
  · intro role hrole
    constructor
    · intro hmem
      simp only [authPremiss, hu, hrole, if_pos hmem]
    · intro hmem
      simp only [authPremiss, hu, hrole, if_neg hmem]

/-- Witness for authPremiss_role_membership: the DELETE permission present in
the permissions of role User grants access. -/
theorem authPremiss_role_membership_witness :
    authPremiss permDelete demoStoreIdle demoRoles demoClaims = .next :=
  ((authPremiss_role_membership permDelete demoStoreIdle demoRoles demoClaims
      demoUserIdle (by rfl)).2 ⟨roleUser, ["READ", "UPDATE", "DELETE"]⟩
      (by rfl)).1 (by decide)

/-- C10: the role and permission decisions are functions only of the check
parameter, the stores and the principal identifier carried by the decoded
token: two decoded payloads with the same principal identifier but different
iat and exp claims receive identical decisions from authRole and from
authPremiss against the same store state. -/
theorem authz_depends_only_on_principal_id
    (role permission : String) (lookup : Nat → Except String (Option UserRec))
    (users : List UserRec) (roles : List RoleRec) (c1 c2 : JwtClaims)
    (h : c1.principalId = c2.principalId) :
    authRole role lookup c1 = authRole role lookup c2 ∧
    authPremiss permission users roles c1
      = authPremiss permission users roles c2 := by
  constructor
  · simp only [authRole, h]
  · simp only [authPremiss, h]

/-- Witness for authz_depends_only_on_principal_id: two decoded payloads for
principal 1 differing in iat and exp. -/
theorem authz_depends_only_on_principal_id_witness :
    authRole roleAdmin demoLookup demoClaims
      = authRole roleAdmin demoLookup demoClaimsB ∧
    authPremiss permDelete demoStoreIdle demoRoles demoClaims
      = authPremiss permDelete demoStoreIdle demoRoles demoClaimsB :=
  authz_depends_only_on_principal_id roleAdmin permDelete demoLookup
    demoStoreIdle demoRoles demoClaims demoClaimsB (by decide)

end NodePractice
